import Mathlib

/-!
Verification of the lnp-node core against its specification.

Shallow embedding of the four source files:
  src/channeld/runtime.rs  — the channel daemon's state machine (`Runtime`,
                             `handle`, `handle_rpc_msg`, `handle_rpc_ctl`,
                             `open_channel`, `accept_channel`,
                             `channel_accepted`, `fund_channel`,
                             `funding_created`, `funding_update`, `transfer`);
  src/lnpd/runtime.rs      — the supervisor (`opening_channels`, `Connect`,
                             `CreateChannel` handling);
  src/daemon_id.rs         — the routable service address (`DaemonId`), its
                             flat byte projection and strict encoding;
  src/wired/mod.rs         — module re-exports only (nothing to embed).

Conventions: Rust machine integers are `Nat` with an explicit `% 2^w` where
the source can overflow; byte strings are `List Nat` (each element a byte
value); fallible paths return `Except`/`Option`.  Library functions from the
lnpbp / bitcoin crates (SHA-256, secp256k1 signing, funding-script
construction, `ChannelParams` validation, node-endpoint parsing, lossy UTF-8
decoding) are not part of this repository; they enter the embedding as
explicit parameters (the `Ext` record and function arguments), so every
theorem quantifies over their behaviour, and concrete instances are supplied
for witnesses.  Logging and the message texts of progress reports carry no
data the spec constrains, so report requests are embedded without their
formatted strings.
-/

/-- A byte string: each element is a byte value. -/
abbrev Bytes : Type := List Nat

/-- A serialized secp256k1 public key (33 bytes compressed in the source). -/
abbrev PubKey : Type := Bytes

/-- A 32-byte channel identifier (`ChannelId` in lnpbp). -/
abbrev ChanId : Type := Bytes

/-- A 32-byte temporary channel identifier chosen before funding. -/
abbrev TempChanId : Type := Bytes

/-- A remote node address (`NodeAddr`), kept abstract as its byte rendering. -/
abbrev NodeAddr : Type := Bytes

/-- The all-zero channel id, `zero!()` of `ChannelId` in `run`. -/
def zeroChanId : ChanId := List.replicate 32 0

/-- Big-endian read of a byte string as an unsigned integer:
`u64::from_be_bytes` when applied to 8 bytes. -/
def beU64 (bs : Bytes) : Nat :=
  bs.foldl (fun a b => a * 256 + b % 256) 0

/-- A bitcoin outpoint: txid (32 bytes) and output index (u32). -/
structure OutPoint where
  txid : Bytes
  vout : Nat
deriving DecidableEq

/-- The null outpoint, `OutPoint::default()` in rust-bitcoin:
all-zero txid and index `u32::MAX`. -/
def OutPoint.null : OutPoint := ⟨List.replicate 32 0, 4294967295⟩

/-- Modelled from the spec: `ChannelId::with(outpoint)` lives in the lnpbp
crate, not under src/.  The spec defines it as the txid with the last two
bytes XORed with the big-endian low 16 bits of the output index
("txid XOR (output-index shifted into the last two bytes, big-endian)",
"the last two bytes XORed with `vout.to_be_bytes()[2..4]`"). -/
def ChanId.withOutpoint (o : OutPoint) : ChanId :=
  o.txid.take 30 ++
    [Nat.xor (o.txid.getD 30 0 % 256) (o.vout / 256 % 256),
     Nat.xor (o.txid.getD 31 0 % 256) (o.vout % 256)]

/-- The channel state machine's nodes (lnpbp `ChannelState`; the spec lists
the same eight, with `Proposed` initial). -/
inductive ChannelState where
  | Proposed
  | Accepted
  | FundingCreated
  | Funded
  | Locked
  | Operational
  | Closing
  | Closed
deriving DecidableEq

/-- The six basepoints plus first per-commitment point of one side
(lnpbp `ChannelKeys`; the spec lists the same fields). -/
structure ChannelKeys where
  funding_pubkey : PubKey
  revocation_basepoint : PubKey
  payment_basepoint : PubKey
  delayed_payment_basepoint : PubKey
  htlc_basepoint : PubKey
  first_per_commitment_point : PubKey
deriving DecidableEq

/-- The negotiated integer channel parameters (lnpbp `ChannelParams`;
the spec lists the same seven fields). -/
structure ChannelParams where
  dust_limit_satoshis : Nat
  max_htlc_value_in_flight_msat : Nat
  channel_reserve_satoshis : Nat
  htlc_minimum_msat : Nat
  to_self_delay : Nat
  max_accepted_htlcs : Nat
  minimum_depth : Nat
deriving DecidableEq

/-- Parameter-level rejection categories; the spec names
"dust, reserve, delay, depth" (lnpbp `ChannelNegotiationError`). -/
inductive ChannelNegotiationError where
  | dust
  | reserve
  | delay
  | depth
deriving DecidableEq

namespace message

/-- BOLT-2 `open_channel`; the fields the embedded code reads. -/
structure OpenChannel where
  temporary_channel_id : TempChanId
  funding_satoshis : Nat
  push_msat : Nat
  dust_limit_satoshis : Nat
  max_htlc_value_in_flight_msat : Nat
  channel_reserve_satoshis : Nat
  htlc_minimum_msat : Nat
  feerate_per_kw : Nat
  to_self_delay : Nat
  max_accepted_htlcs : Nat
  funding_pubkey : PubKey
  revocation_basepoint : PubKey
  payment_point : PubKey
  delayed_payment_basepoint : PubKey
  htlc_basepoint : PubKey
  first_per_commitment_point : PubKey
deriving DecidableEq

/-- BOLT-2 `accept_channel`; the fields the embedded code reads or builds. -/
structure AcceptChannel where
  temporary_channel_id : TempChanId
  dust_limit_satoshis : Nat
  max_htlc_value_in_flight_msat : Nat
  channel_reserve_satoshis : Nat
  htlc_minimum_msat : Nat
  minimum_depth : Nat
  to_self_delay : Nat
  max_accepted_htlcs : Nat
  funding_pubkey : PubKey
  revocation_basepoint : PubKey
  payment_point : PubKey
  delayed_payment_basepoint : PubKey
  htlc_basepoint : PubKey
  first_per_commitment_point : PubKey
  shutdown_scriptpubkey : Option Bytes
deriving DecidableEq

/-- BOLT-2 `funding_created`. -/
structure FundingCreated where
  temporary_channel_id : TempChanId
  funding_txid : Bytes
  funding_output_index : Nat
  signature : Bytes
deriving DecidableEq

/-- BOLT-2 `funding_signed`. -/
structure FundingSigned where
  channel_id : ChanId
  signature : Bytes
deriving DecidableEq

/-- BOLT-2 `funding_locked`. -/
structure FundingLocked where
  channel_id : ChanId
  next_per_commitment_point : PubKey
deriving DecidableEq

/-- BOLT-2 `update_add_htlc` with the generalized asset field. -/
structure UpdateAddHtlc where
  channel_id : ChanId
  htlc_id : Nat
  amount_msat : Nat
  payment_hash : Bytes
  cltv_expiry : Nat
  onion_routing_packet : Bytes
  asset_id : Option Nat
deriving DecidableEq

end message

/-- The LNPWP peer messages the embedded handlers distinguish
(lnpbp `Messages`); `Rest` stands for every other peer message,
which both runtimes ignore. -/
inductive Messages where
  | OpenChannel (m : message.OpenChannel)
  | AcceptChannel (m : message.AcceptChannel)
  | FundingCreated (m : message.FundingCreated)
  | FundingSigned (m : message.FundingSigned)
  | FundingLocked (m : message.FundingLocked)
  | UpdateAddHtlc (m : message.UpdateAddHtlc)
  | Rest
deriving DecidableEq

/-- Modelled from the spec: `ServiceId` (the channel daemon's bus address
type) is not under src/; the spec's `ServiceAddress` lists the variants
`Loopback`, `Supervisor` (`Lnpd`), `Gossip`, `Router` (`Routing`),
`Peer(endpoint)`, `Channel(32-byte id)`, `Foreign(string)`. -/
inductive ServiceId where
  | Loopback
  | Lnpd
  | Gossip
  | Routing
  | Peer (addr : NodeAddr)
  | Channel (id : ChanId)
  | Foreign (name : Bytes)
deriving DecidableEq

/-- The two logical buses plus the reserved bridge (`ServiceBus`). -/
inductive ServiceBus where
  | Msg
  | Ctl
  | Bridge
deriving DecidableEq

namespace Channeld

/-- Asset balances: a finite map asset-id → amount
(lnpbp `AssetsBalance`, a `BTreeMap`), embedded as an association list. -/
abbrev AssetsBalance : Type := List (Nat × Nat)

/-- The channel daemon's `request::CreateChannel` payload
(fields of `OpenChannelWith` / `AcceptChannelFrom`). -/
structure CreateChannel where
  channel_req : message.OpenChannel
  peerd : ServiceId
  report_to : Option ServiceId
deriving DecidableEq

/-- The `request::Transfer` payload. -/
structure Transfer where
  amount : Nat
  asset : Option Nat
deriving DecidableEq

/-- Discriminants of `Request`, the value `request.get_type()` yields. -/
inductive RequestType where
  | Hello
  | PeerMessage
  | OpenChannelWith
  | AcceptChannelFrom
  | FundChannel
  | Transfer
  | GetInfo
  | ChannelInfo
  | ChannelFunding
  | UpdateChannelId
  | Progress
  | Success
  | Failure
deriving DecidableEq

/-- The channel daemon's error type (`crate::Error`):
structural `NotSupported`, negotiation failures, and the catch-all. -/
inductive Error where
  | NotSupported (bus : ServiceBus) (ty : RequestType)
  | Negotiation (e : ChannelNegotiationError)
  | Other (s : String)
deriving DecidableEq

/-- The `ChannelInfo` snapshot returned by `GetInfo`
(`crate::rpc::request::ChannelInfo`). -/
structure ChannelInfoData where
  channel_id : Option ChanId
  temporary_channel_id : TempChanId
  state : ChannelState
  local_capacity : Nat
  remote_capacities : List (NodeAddr × Nat)
  assets : List Nat
  local_balances : AssetsBalance
  remote_balances : List (NodeAddr × AssetsBalance)
  funding_outpoint : OutPoint
  remote_peers : List NodeAddr
  uptime : Nat
  since : Nat
  commitment_updates : Nat
  total_payments : Nat
  pending_payments : Nat
  is_originator : Bool
  params : ChannelParams
  local_keys : ChannelKeys
  remote_keys : List (NodeAddr × ChannelKeys)
deriving DecidableEq

/-- The bus request vocabulary the channel daemon sends or receives
(`crate::rpc::Request`); progress/success/failure reports are embedded
without their formatted message strings, which carry no specified data. -/
inductive Request where
  | Hello
  | PeerMessage (m : Messages)
  | OpenChannelWith (c : CreateChannel)
  | AcceptChannelFrom (c : CreateChannel)
  | FundChannel (o : OutPoint)
  | Transfer (t : Transfer)
  | GetInfo
  | ChannelInfo (i : ChannelInfoData)
  | ChannelFunding (script : Bytes)
  | UpdateChannelId (id : ChanId)
  | Progress
  | Success
  | Failure (e : Error)
deriving DecidableEq

/-- The discriminant of a request, `request.get_type()`. -/
def Request.get_type : Request → RequestType
  | .Hello => .Hello
  | .PeerMessage _ => .PeerMessage
  | .OpenChannelWith _ => .OpenChannelWith
  | .AcceptChannelFrom _ => .AcceptChannelFrom
  | .FundChannel _ => .FundChannel
  | .Transfer _ => .Transfer
  | .GetInfo => .GetInfo
  | .ChannelInfo _ => .ChannelInfo
  | .ChannelFunding _ => .ChannelFunding
  | .UpdateChannelId _ => .UpdateChannelId
  | .Progress => .Progress
  | .Success => .Success
  | .Failure _ => .Failure

/-- The channel daemon's runtime state (struct `Runtime` in
src/channeld/runtime.rs).  `started` is the process start instant in
seconds since the epoch; the storage driver is write-only dead code in the
source (`#[allow(dead_code)]`) and is not carried. -/
structure Runtime where
  identity : ServiceId
  peer_service : ServiceId
  local_node : PubKey
  chain : Bytes
  channel_id : ChanId
  temporary_channel_id : TempChanId
  state : ChannelState
  local_capacity : Nat
  remote_capacity : Nat
  local_balances : AssetsBalance
  remote_balances : AssetsBalance
  funding_outpoint : OutPoint
  remote_peer : Option NodeAddr
  started : Nat
  commitment_number : Nat
  total_payments : Nat
  pending_payments : Nat
  params : ChannelParams
  local_keys : ChannelKeys
  remote_keys : ChannelKeys
  is_originator : Bool
  obscuring_factor : Nat
  enquirer : Option ServiceId
deriving DecidableEq

/-- `Runtime::channel_capacity`. -/
def Runtime.channel_capacity (r : Runtime) : Nat :=
  r.local_capacity + r.remote_capacity

/-- `Runtime::node_id` (`local_node.node_id()`). -/
def Runtime.node_id (r : Runtime) : PubKey :=
  r.local_node

/-- The placeholder public key `dumb!()` produces for `ChannelKeys`
(`DumbDefault`); its value is never inspected by the embedded code. -/
def dumbPubKey : PubKey := 2 :: List.replicate 32 0

/-- `ChannelKeys` as `dumb!()` initializes them in `run`. -/
def dumbChannelKeys : ChannelKeys :=
  ⟨dumbPubKey, dumbPubKey, dumbPubKey, dumbPubKey, dumbPubKey, dumbPubKey⟩

/-- `ChannelParams::default()` (all counters zero), used by `run`. -/
def defaultChannelParams : ChannelParams := ⟨0, 0, 0, 0, 0, 0, 0⟩

/-- The runtime `run` constructs before entering the service loop:
identity `Channel(channel_id)`, peer service `Loopback`, zero channel id,
the argument id as temporary id, default (`Proposed`) state, zero
capacities and counters, null funding outpoint, no remote peer, no
enquirer. -/
def initRuntime (channel_id : ChanId) (local_node : PubKey) (chain : Bytes)
    (started : Nat) : Runtime where
  identity := ServiceId.Channel channel_id
  peer_service := ServiceId.Loopback
  local_node := local_node
  chain := chain
  channel_id := zeroChanId
  temporary_channel_id := channel_id
  state := ChannelState.Proposed
  local_capacity := 0
  remote_capacity := 0
  local_balances := []
  remote_balances := []
  funding_outpoint := OutPoint.null
  remote_peer := none
  started := started
  commitment_number := 0
  total_payments := 0
  pending_payments := 0
  params := defaultChannelParams
  local_keys := dumbChannelKeys
  remote_keys := dumbChannelKeys
  is_originator := false
  obscuring_factor := 0
  enquirer := none

/-- `ChannelKeys::from(&OpenChannel)`: the basepoints copied out of the
message (lnpbp; field-for-field per the spec's `ChannelKeys`). -/
def ChannelKeys.fromOpen (m : message.OpenChannel) : ChannelKeys where
  funding_pubkey := m.funding_pubkey
  revocation_basepoint := m.revocation_basepoint
  payment_basepoint := m.payment_point
  delayed_payment_basepoint := m.delayed_payment_basepoint
  htlc_basepoint := m.htlc_basepoint
  first_per_commitment_point := m.first_per_commitment_point

/-- `ChannelKeys::from(&AcceptChannel)`: the basepoints copied out of the
message (lnpbp; field-for-field per the spec's `ChannelKeys`). -/
def ChannelKeys.fromAccept (m : message.AcceptChannel) : ChannelKeys where
  funding_pubkey := m.funding_pubkey
  revocation_basepoint := m.revocation_basepoint
  payment_basepoint := m.payment_point
  delayed_payment_basepoint := m.delayed_payment_basepoint
  htlc_basepoint := m.htlc_basepoint
  first_per_commitment_point := m.first_per_commitment_point

/-- The library and environment functions the channel daemon calls but whose
code lives outside this repository (lnpbp, bitcoin and secp256k1 crates,
the process clock and the random preimage source).  Every theorem about the
handlers quantifies over an arbitrary `Ext`, so nothing is assumed about
these functions beyond what the handler code itself does with their
results. -/
structure Ext where
  /-- `sha256::Hash` of a byte string (bitcoin_hashes). -/
  sha256 : Bytes → Bytes
  /-- `PubkeyScript::ln_funding(capacity, local_pk, remote_pk)` (lnpbp). -/
  lnFunding : Nat → PubKey → PubKey → Bytes
  /-- `Runtime::sign_funding`: the BOLT-3 counterparty commitment
  transaction built from the runtime's fields, BIP143-hashed and signed
  with the local node key; abstracted as an oracle of the runtime state
  since no embedded claim inspects the signature bytes. -/
  signFunding : Runtime → Bytes
  /-- `ChannelParams::with(&OpenChannel)` (lnpbp): BOLT-2 acceptance
  rules on the proposed values. -/
  paramsWith : message.OpenChannel → Except ChannelNegotiationError ChannelParams
  /-- `params.updated(&AcceptChannel, depth_bound)` (lnpbp): validation of
  the responder's choices, yielding the updated parameters. -/
  paramsUpdated : ChannelParams → message.AcceptChannel → Option Nat →
    Except ChannelNegotiationError ChannelParams
  /-- The random `PaymentPreimage` drawn inside `transfer`. -/
  preimage : Bytes
  /-- `preimage.into()`: the payment hash of that preimage. -/
  paymentHash : Bytes
  /-- `SystemTime::now()` in seconds since the epoch, read by `GetInfo`. -/
  now : Nat

/-- One `senders.send_to(bus, from, dest, request)` emission. -/
structure Send where
  bus : ServiceBus
  sender : ServiceId
  dest : ServiceId
  req : Request
deriving DecidableEq

/-- Equality of `Except` values is decidable when both components' is. -/
instance exceptDecEq {ε α : Type} [DecidableEq ε] [DecidableEq α] :
    DecidableEq (Except ε α)
  | .error e, .error f =>
    if h : e = f then isTrue (h ▸ rfl)
    else isFalse fun hh => h (Except.error.inj hh)
  | .error _, .ok _ => isFalse fun hh => Except.noConfusion hh
  | .ok _, .error _ => isFalse fun hh => Except.noConfusion hh
  | .ok x, .ok y =>
    if h : x = y then isTrue (h ▸ rfl)
    else isFalse fun hh => h (Except.ok.inj hh)

/-- What one handler invocation produces: the updated runtime, the emitted
bus messages in order, and the handler's `Result`. -/
structure Outcome where
  rt : Runtime
  sends : List Send
  result : Except Error Unit
deriving DecidableEq

/-- `send_ctl` to a known destination (the `CtlServer` helper; modelled
from the spec: src/ holds only its callers, and the spec says reports and
control responses go out on the `Ctl` bus from the daemon's identity). -/
def sendCtl (r : Runtime) (dest : ServiceId) (req : Request) : List Send :=
  [⟨ServiceBus.Ctl, r.identity, dest, req⟩]

/-- `send_ctl` to an optional destination: nothing is emitted when the
destination is unknown (modelled from the spec: "report to the enquirer
when known"). -/
def sendCtlOpt (r : Runtime) (dest : Option ServiceId) (req : Request) :
    List Send :=
  match dest with
  | some d => sendCtl r d req
  | none => []

/-- `report_progress_to` (CtlServer; modelled from the spec's
progress/success/failure report vocabulary). -/
def reportProgressTo (r : Runtime) (dest : Option ServiceId) : List Send :=
  sendCtlOpt r dest Request.Progress

/-- `report_success_to` (CtlServer; modelled from the spec). -/
def reportSuccessTo (r : Runtime) (dest : Option ServiceId) : List Send :=
  sendCtlOpt r dest Request.Success

/-- `report_failure_to` (CtlServer; modelled from the spec: "report to the
enquirer when known via a `ReportFailure` control message"). -/
def reportFailureTo (r : Runtime) (dest : Option ServiceId) (e : Error) :
    List Send :=
  sendCtlOpt r dest (Request.Failure e)

/-- `Runtime::send_peer`: forward a peer message on the `Msg` bus to the
connection daemon. -/
def sendPeer (r : Runtime) (m : Messages) : List Send :=
  [⟨ServiceBus.Msg, r.identity, r.peer_service, Request.PeerMessage m⟩]

end Channeld

namespace Channeld

/-- `Runtime::open_channel`: report progress, mark this side originator, then
compute the negotiated parameters and the local keys from the request.  The
originator flag is set before the fallible parameter computation, exactly as
in the source. -/
def openChannelFn (ext : Ext) (r : Runtime) (channel_req : message.OpenChannel) :
    Runtime × List Send × Except ChannelNegotiationError Unit :=
  let enquirer := r.enquirer
  let sends0 := reportProgressTo r enquirer
  let r1 := { r with is_originator := true }
  match ext.paramsWith channel_req with
  | .error e => (r1, sends0, .error e)
  | .ok p =>
    ({ r1 with params := p, local_keys := ChannelKeys.fromOpen channel_req },
     sends0, .ok ())

/-- `Runtime::accept_channel`: report progress, mark this side responder,
compute parameters and remote keys from the peer's request, build the
`AcceptChannel` reply with `minimum_depth = 3` and every key field set to
the local node id (`dumb_key`), validate it against the parameters, store
the local keys derived from it, and report success. -/
def acceptChannelFn (ext : Ext) (r : Runtime)
    (channel_req : message.OpenChannel) :
    Runtime × List Send × Except ChannelNegotiationError message.AcceptChannel :=
  let enquirer := r.enquirer
  let sends0 := reportProgressTo r enquirer
  let r1 := { r with is_originator := false }
  match ext.paramsWith channel_req with
  | .error e => (r1, sends0, .error e)
  | .ok p =>
    let r2 := { r1 with params := p,
                        remote_keys := ChannelKeys.fromOpen channel_req }
    let dumb_key := r2.node_id
    let accept_channel : message.AcceptChannel :=
      { temporary_channel_id := channel_req.temporary_channel_id
        dust_limit_satoshis := channel_req.dust_limit_satoshis
        max_htlc_value_in_flight_msat := channel_req.max_htlc_value_in_flight_msat
        channel_reserve_satoshis := channel_req.channel_reserve_satoshis
        htlc_minimum_msat := channel_req.htlc_minimum_msat
        minimum_depth := 3
        to_self_delay := channel_req.to_self_delay
        max_accepted_htlcs := channel_req.max_accepted_htlcs
        funding_pubkey := dumb_key
        revocation_basepoint := dumb_key
        payment_point := dumb_key
        delayed_payment_basepoint := dumb_key
        htlc_basepoint := dumb_key
        first_per_commitment_point := dumb_key
        shutdown_scriptpubkey := none }
    match ext.paramsUpdated r2.params accept_channel none with
    | .error e => (r2, sends0, .error e)
    | .ok p2 =>
      let r3 := { r2 with params := p2,
                          local_keys := ChannelKeys.fromAccept accept_channel }
      (r3, sends0 ++ reportSuccessTo r3 enquirer, .ok accept_channel)

/-- `Runtime::channel_accepted`: report progress, validate the peer's
`AcceptChannel` against the stored parameters (`params.updated(…, None)`,
the depth bound being a TODO in the source), store the remote keys from it,
and report success. -/
def channelAccepted (ext : Ext) (r : Runtime)
    (accept_channel : message.AcceptChannel) :
    Runtime × List Send × Except ChannelNegotiationError Unit :=
  let enquirer := r.enquirer
  let sends0 := reportProgressTo r enquirer
  match ext.paramsUpdated r.params accept_channel none with
  | .error e => (r, sends0, .error e)
  | .ok p =>
    let r1 := { r with params := p,
                       remote_keys := ChannelKeys.fromAccept accept_channel }
    (r1, sends0 ++ reportSuccessTo r1 enquirer, .ok ())

/-- `Runtime::funding_update`: recompute the obscuring factor as the
big-endian u64 formed by bytes 24.. of SHA-256 over the two payment
basepoints, concatenated originator-first; reset the commitment number;
derive the channel id from the funding outpoint; announce it to the
supervisor (from the old identity, as in the source, where the identity is
reassigned only after the send); adopt the new identity and report
progress. -/
def fundingUpdate (ext : Ext) (r : Runtime) : Runtime × List Send :=
  let enquirer := r.enquirer
  let input :=
    if r.is_originator then
      r.local_keys.payment_basepoint ++ r.remote_keys.payment_basepoint
    else
      r.remote_keys.payment_basepoint ++ r.local_keys.payment_basepoint
  let obscuring_hash := ext.sha256 input
  let r1 := { r with obscuring_factor := beU64 (obscuring_hash.drop 24),
                     commitment_number := 0,
                     channel_id := ChanId.withOutpoint r.funding_outpoint }
  let s1 := sendCtl r1 ServiceId.Lnpd (Request.UpdateChannelId r1.channel_id)
  let r2 := { r1 with identity := ServiceId.Channel r1.channel_id }
  (r2, s1 ++ reportProgressTo r2 enquirer)

/-- `Runtime::fund_channel`: report progress, store the outpoint, run
`funding_update`, sign, build `FundingCreated` (the output index truncated
to u16 by the `as u16` cast), and report progress again. -/
def fundChannel (ext : Ext) (r : Runtime) (funding_outpoint : OutPoint) :
    Runtime × List Send × message.FundingCreated :=
  let enquirer := r.enquirer
  let sends0 := reportProgressTo r enquirer
  let r1 := { r with funding_outpoint := funding_outpoint }
  let (r2, sends1) := fundingUpdate ext r1
  let signature := ext.signFunding r2
  let funding_created : message.FundingCreated :=
    { temporary_channel_id := r2.temporary_channel_id
      funding_txid := r2.funding_outpoint.txid
      funding_output_index := r2.funding_outpoint.vout % 65536
      signature := signature }
  (r2, sends0 ++ sends1 ++ reportProgressTo r2 enquirer, funding_created)

/-- `Runtime::funding_created`: report progress, store the peer's outpoint,
run `funding_update` (the peer's signature is a `TODO: Save signature!` in
the source and is dropped), sign, build `FundingSigned`, report progress. -/
def fundingCreatedFn (ext : Ext) (r : Runtime)
    (funding_created : message.FundingCreated) :
    Runtime × List Send × message.FundingSigned :=
  let enquirer := r.enquirer
  let sends0 := reportProgressTo r enquirer
  let r1 := { r with funding_outpoint :=
                ⟨funding_created.funding_txid,
                 funding_created.funding_output_index⟩ }
  let (r2, sends1) := fundingUpdate ext r1
  let signature := ext.signFunding r2
  let funding_signed : message.FundingSigned :=
    { channel_id := r2.channel_id, signature := signature }
  (r2, sends0 ++ sends1 ++ reportProgressTo r2 enquirer, funding_signed)

/-- `Runtime::transfer`: draw a random preimage, build `UpdateAddHtlc` with
`htlc_id = total_payments` and the transfer's amount and asset, increment
`total_payments` (a u64), and report progress. -/
def transferFn (ext : Ext) (r : Runtime) (transfer_req : Transfer) :
    Runtime × List Send × message.UpdateAddHtlc :=
  let enquirer := r.enquirer
  let payment_hash := ext.paymentHash
  let update_add_htlc : message.UpdateAddHtlc :=
    { channel_id := r.channel_id
      htlc_id := r.total_payments
      amount_msat := transfer_req.amount
      payment_hash := payment_hash
      cltv_expiry := 0
      onion_routing_packet := []
      asset_id := transfer_req.asset }
  let r1 := { r with total_payments := (r.total_payments + 1) % 2 ^ 64 }
  (r1, reportProgressTo r1 enquirer, update_add_htlc)

/-- The map-to-singleton helper `bmap` local to the `GetInfo` branch. -/
def bmap {α : Type} (remote_peer : Option NodeAddr) (v : α) :
    List (NodeAddr × α) :=
  match remote_peer with
  | some p => [(p, v)]
  | none => []

/-- The `ChannelInfo` snapshot the `GetInfo` branch assembles. -/
def mkChannelInfo (ext : Ext) (r : Runtime) : ChannelInfoData where
  channel_id := if r.channel_id = zeroChanId then none else some r.channel_id
  temporary_channel_id := r.temporary_channel_id
  state := r.state
  local_capacity := r.local_capacity
  remote_capacities := bmap r.remote_peer r.remote_capacity
  assets := r.local_balances.map Prod.fst
  local_balances := r.local_balances
  remote_balances := bmap r.remote_peer r.remote_balances
  funding_outpoint := r.funding_outpoint
  remote_peers := match r.remote_peer with | some p => [p] | none => []
  uptime := ext.now - r.started
  since := r.started
  commitment_updates := r.commitment_number
  total_payments := r.total_payments
  pending_payments := r.pending_payments
  is_originator := r.is_originator
  params := r.params
  local_keys := r.local_keys
  remote_keys := bmap r.remote_peer r.remote_keys

/-- `Runtime::handle_rpc_msg`: the `Msg`-bus dispatcher.  `AcceptChannel`
sets the state to `Accepted` before validating; a validation failure is
reported to the enquirer and returned.  `FundingCreated` replies with
`FundingSigned` (its state transition is commented out in the source);
`FundingSigned` and `FundingLocked` bodies are TODO stubs; other peer
messages are ignored; any non-peer request is `NotSupported`. -/
def handleRpcMsg (ext : Ext) (r : Runtime) (_source : ServiceId)
    (request : Request) : Outcome :=
  match request with
  | .PeerMessage (.AcceptChannel accept_channel) =>
    let r1 := { r with state := ChannelState.Accepted }
    let enquirer := r1.enquirer
    match channelAccepted ext r1 accept_channel with
    | (r2, sends, .error e) =>
      ⟨r2, sends ++ reportFailureTo r2 enquirer (Error.Negotiation e),
       .error (Error.Negotiation e)⟩
    | (r2, sends, .ok ()) =>
      let script_pubkey :=
        ext.lnFunding r2.channel_capacity r2.local_keys.funding_pubkey
          accept_channel.funding_pubkey
      ⟨r2, sends ++ sendCtlOpt r2 enquirer (Request.ChannelFunding script_pubkey),
       .ok ()⟩
  | .PeerMessage (.FundingCreated funding_created) =>
    let (r1, sends, funding_signed) := fundingCreatedFn ext r funding_created
    ⟨r1, sends ++ sendPeer r1 (Messages.FundingSigned funding_signed), .ok ()⟩
  | .PeerMessage (.FundingSigned _) => ⟨r, [], .ok ()⟩
  | .PeerMessage (.FundingLocked _) => ⟨r, [], .ok ()⟩
  | .PeerMessage _ => ⟨r, [], .ok ()⟩
  | _ => ⟨r, [], .error (Error.NotSupported ServiceBus.Msg request.get_type)⟩

/-- `Runtime::handle_rpc_ctl`: the `Ctl`-bus dispatcher, matching the
source arm for arm. -/
def handleRpcCtl (ext : Ext) (r : Runtime) (source : ServiceId)
    (request : Request) : Outcome :=
  match request with
  | .OpenChannelWith ⟨channel_req, peerd, report_to⟩ =>
    let r1 := { r with peer_service := peerd, enquirer := report_to,
                       remote_peer :=
                         match peerd with
                         | .Peer addr => some addr
                         | _ => r.remote_peer }
    match openChannelFn ext r1 channel_req with
    | (r2, sends, .error e) =>
      ⟨r2, sends ++ reportFailureTo r2 report_to (Error.Negotiation e),
       .error (Error.Negotiation e)⟩
    | (r2, sends, .ok ()) =>
      ⟨{ r2 with state := ChannelState.Proposed },
       sends ++ sendPeer r2 (Messages.OpenChannel channel_req), .ok ()⟩
  | .AcceptChannelFrom ⟨channel_req, peerd, report_to⟩ =>
    let r1 := { r with peer_service := peerd, state := ChannelState.Proposed,
                       remote_peer :=
                         match peerd with
                         | .Peer addr => some addr
                         | _ => r.remote_peer }
    match acceptChannelFn ext r1 channel_req with
    | (r2, sends, .error e) =>
      ⟨r2, sends ++ reportFailureTo r2 report_to (Error.Negotiation e),
       .error (Error.Negotiation e)⟩
    | (r2, sends, .ok accept_channel) =>
      ⟨{ r2 with state := ChannelState.Accepted },
       sends ++ sendPeer r2 (Messages.AcceptChannel accept_channel), .ok ()⟩
  | .FundChannel funding_outpoint =>
    let r1 := { r with enquirer := some source }
    let (r2, sends, funding_created) := fundChannel ext r1 funding_outpoint
    ⟨r2, sends ++ sendPeer r2 (Messages.FundingCreated funding_created), .ok ()⟩
  | .Transfer transfer_req =>
    let r1 := { r with enquirer := some source }
    let (r2, sends, update_add_htlc) := transferFn ext r1 transfer_req
    ⟨r2, sends ++ sendPeer r2 (Messages.UpdateAddHtlc update_add_htlc), .ok ()⟩
  | .GetInfo =>
    let info := mkChannelInfo ext r
    ⟨r, sendCtl r source (Request.ChannelInfo info), .ok ()⟩
  | _ => ⟨r, [], .error (Error.NotSupported ServiceBus.Ctl request.get_type)⟩

/-- `esb::Handler::handle`: dispatch by bus; the bridge is refused with
`NotSupported`. -/
def handle (ext : Ext) (r : Runtime) (bus : ServiceBus) (source : ServiceId)
    (request : Request) : Outcome :=
  match bus with
  | .Msg => handleRpcMsg ext r source request
  | .Ctl => handleRpcCtl ext r source request
  | .Bridge =>
    ⟨r, [], .error (Error.NotSupported ServiceBus.Bridge request.get_type)⟩

/-- One inbound bus frame: the bus it arrived on, the decoded source
address, and the typed request. -/
structure Input where
  bus : ServiceBus
  source : ServiceId
  request : Request
deriving DecidableEq

/-- The runtime after handling one frame. -/
def step (ext : Ext) (r : Runtime) (i : Input) : Runtime :=
  (handle ext r i.bus i.source i.request).rt

/-- The runtime after handling a sequence of frames in order. -/
def execList (ext : Ext) (r : Runtime) : List Input → Runtime
  | [] => r
  | i :: is => execList ext (step ext r i) is

/-- The sequence of channel states after each handled frame. -/
def stateTrace (ext : Ext) (r : Runtime) : List Input → List ChannelState
  | [] => []
  | i :: is => (step ext r i).state :: stateTrace ext (step ext r i) is

end Channeld

/-- The routable daemon address of src/daemon_id.rs.  Rust `String` payloads
are embedded as their UTF-8 bytes. -/
inductive DaemonId where
  | Loopback
  | Lnpd
  | Gossip
  | Routing
  | Connection (endpoint : Bytes)
  | Channel (channel_id : ChanId)
  | Foreign (name : Bytes)
deriving DecidableEq

/-- The UTF-8 bytes of "loopback". -/
def loopbackBytes : Bytes := [108, 111, 111, 112, 98, 97, 99, 107]

/-- The UTF-8 bytes of "lnpd". -/
def lnpdBytes : Bytes := [108, 110, 112, 100]

/-- The UTF-8 bytes of "gossipd". -/
def gossipdBytes : Bytes := [103, 111, 115, 115, 105, 112, 100]

/-- The UTF-8 bytes of "routed". -/
def routedBytes : Bytes := [114, 111, 117, 116, 101, 100]

/-- `AsRef<[u8]> for DaemonId`: the flat byte projection used as the
low-level routing key — the fixed name for the four unit variants, the
endpoint or name string's bytes, the raw 32 channel-id bytes. -/
def DaemonId.asRef : DaemonId → Bytes
  | .Loopback => loopbackBytes
  | .Lnpd => lnpdBytes
  | .Gossip => gossipdBytes
  | .Routing => routedBytes
  | .Connection endpoint => endpoint
  | .Channel channel_id => channel_id
  | .Foreign name => name

/-- `From<Vec<u8>> for DaemonId`: try the four fixed names; otherwise take
the lossy UTF-8 string `s` of the bytes; if `s` parses as a node endpoint,
`Connection(s)`; otherwise if exactly 32 bytes, `Channel` of the raw
bytes; otherwise `Foreign(s)`.  `NodeEndpoint::from_str(…).is_ok()` and
`String::from_utf8_lossy` live in the lnpbp crate and the Rust standard
library; they are passed in as `isEndpoint` (applied to the lossy string)
and `lossy` (returning the lossy string's UTF-8 bytes; the identity on
valid UTF-8 input). -/
def DaemonId.fromVec (isEndpoint : Bytes → Bool) (lossy : Bytes → Bytes)
    (v : Bytes) : DaemonId :=
  if v = loopbackBytes then .Loopback
  else if v = lnpdBytes then .Lnpd
  else if v = gossipdBytes then .Gossip
  else if v = routedBytes then .Routing
  else
    let s := lossy v
    if isEndpoint s then .Connection s
    else if v.length = 32 then .Channel v
    else .Foreign s

/-- The little-endian two-byte rendering of a u16 value. -/
def u16le (n : Nat) : Bytes := [n % 256, n / 256 % 256]

/-- Modelled from the spec: the lnpbp strict encoding of a string payload
(crate `strict_encoding`, not under src/) — "a length-prefixed payload",
the length a little-endian u16; a string longer than 0xFFFF cannot be
encoded. -/
def encodeStrBytes (s : Bytes) : Option Bytes :=
  if s.length < 65536 then some (u16le s.length ++ s) else none

/-- Modelled from the spec: strict decoding of a length-prefixed string
payload — read a little-endian u16 length, then that many bytes; fails on
a short buffer.  Returns the payload and the remaining bytes. -/
def decodeStrBytes (d : Bytes) : Option (Bytes × Bytes) :=
  match d with
  | l0 :: l1 :: rest =>
    let n := l0 % 256 + 256 * (l1 % 256)
    if rest.length < n then none else some (rest.take n, rest.drop n)
  | _ => none

/-- `StrictEncode for DaemonId`: the one-byte discriminant 0–6, followed by
the length-prefixed string for `Connection`/`Foreign` and the raw 32
channel-id bytes for `Channel` (a hash type's strict encoding). -/
def DaemonId.strictEncode : DaemonId → Option Bytes
  | .Loopback => some [0]
  | .Lnpd => some [1]
  | .Gossip => some [2]
  | .Routing => some [3]
  | .Connection peer_id => (encodeStrBytes peer_id).map (fun b => 4 :: b)
  | .Channel channel_id => some (5 :: channel_id)
  | .Foreign id => (encodeStrBytes id).map (fun b => 6 :: b)

/-- `StrictDecode for DaemonId`: read the discriminant byte, then the
variant's payload; unknown discriminants fail (`EnumValueNotKnown`).
Returns the value and the remaining bytes. -/
def DaemonId.strictDecode (d : Bytes) : Option (DaemonId × Bytes) :=
  match d with
  | 0 :: rest => some (.Loopback, rest)
  | 1 :: rest => some (.Lnpd, rest)
  | 2 :: rest => some (.Gossip, rest)
  | 3 :: rest => some (.Routing, rest)
  | 4 :: rest => (decodeStrBytes rest).map (fun p => (.Connection p.1, p.2))
  | 5 :: rest =>
    if rest.length < 32 then none else some (.Channel (rest.take 32), rest.drop 32)
  | 6 :: rest => (decodeStrBytes rest).map (fun p => (.Foreign p.1, p.2))
  | _ => none

/-- The payload well-formedness the Rust types guarantee: a `Channel`
carries exactly 32 bytes (`ChannelId` is a 32-byte hash newtype). -/
def DaemonId.wf : DaemonId → Prop
  | .Channel channel_id => channel_id.length = 32
  | _ => True

instance : DecidablePred DaemonId.wf := by
  intro a
  cases a <;> simp [DaemonId.wf] <;> infer_instance

namespace Lnpd

/-- The supervisor's `request::CreateChannel` payload (src/lnpd/runtime.rs
destructures `channel_req` and `connectiond`). -/
structure CreateChannel where
  channel_req : message.OpenChannel
  connectiond : DaemonId
deriving DecidableEq

/-- Discriminants of the supervisor's requests. -/
inductive RequestType where
  | Hello
  | LnpwpMessage
  | CreateChannel
  | Connect
  | UpdateChannelId
deriving DecidableEq

/-- The bus requests the supervisor distinguishes; every other request
falls to the `NotSupported` arms. -/
inductive Request where
  | Hello
  | LnpwpMessage (m : Messages)
  | CreateChannel (c : CreateChannel)
  | Connect
  | UpdateChannelId (id : ChanId)
deriving DecidableEq

/-- The discriminant of a supervisor request, `request.get_type()`. -/
def Request.get_type : Request → RequestType
  | .Hello => .Hello
  | .LnpwpMessage _ => .LnpwpMessage
  | .CreateChannel _ => .CreateChannel
  | .Connect => .Connect
  | .UpdateChannelId _ => .UpdateChannelId

/-- The supervisor's error type: structural `NotSupported` over the
endpoints (the same `Msg`/`Ctl`/`Bridge` triple) and the bookkeeping
catch-all `Other(string)`. -/
inductive Error where
  | NotSupported (endpoint : ServiceBus) (ty : RequestType)
  | Other (s : String)
deriving DecidableEq

/-- The supervisor's runtime state: the pending channel requests keyed by
the address that will host the new channel daemon. -/
structure Runtime where
  opening_channels : List (DaemonId × message.OpenChannel)
deriving DecidableEq

/-- `HashMap::get`: the value stored under a key. -/
def lookupChan : List (DaemonId × message.OpenChannel) → DaemonId →
    Option message.OpenChannel
  | [], _ => none
  | (k, v) :: rest, key => if k = key then some v else lookupChan rest key

/-- `HashMap::insert`: replace the value under an existing key, or add the
binding. -/
def insertChan (m : List (DaemonId × message.OpenChannel)) (key : DaemonId)
    (v : message.OpenChannel) : List (DaemonId × message.OpenChannel) :=
  match m with
  | [] => [(key, v)]
  | (k, w) :: rest =>
    if k = key then (k, v) :: rest else (k, w) :: insertChan rest key v

/-- One `senders.send_to(endpoint, dest, request)` emission of the
supervisor's controller. -/
structure Send where
  endpoint : ServiceBus
  dest : DaemonId
  req : Request
deriving DecidableEq

/-- What one supervisor handler invocation produces: the updated runtime,
the emitted bus messages, the child processes launched (`launch(name,
args)`, the hex temporary channel id kept as raw bytes), and the handler's
`Result`.  Process spawning is an OS call whose failure is environmental;
the embedding records the successful launch. -/
structure Outcome where
  rt : Runtime
  sends : List Send
  launched : List (String × Bytes)
  result : Except Error Unit
deriving DecidableEq

/-- `Runtime::open_channel`: launch a `channeld` child with the temporary
channel id as its argument and record the request under
`Channel(temp_id)` (the `ChannelId` rebuilt from the temporary id's raw
bytes). -/
def openChannelFn (r : Runtime) (open_channel : message.OpenChannel) :
    Runtime × List (String × Bytes) :=
  ({ opening_channels :=
       insertChan r.opening_channels
         (DaemonId.Channel open_channel.temporary_channel_id) open_channel },
   [("channeld", open_channel.temporary_channel_id)])

/-- `Runtime::handle_rpc_msg`: a peer `OpenChannel` spawns a responder
channel daemon; other peer messages are ignored; any non-peer request is
`NotSupported`. -/
def handleRpcMsg (r : Runtime) (_source : DaemonId) (request : Request) :
    Outcome :=
  match request with
  | .LnpwpMessage (.OpenChannel open_channel) =>
    let (r1, launched) := openChannelFn r open_channel
    ⟨r1, [], launched, .ok ()⟩
  | .LnpwpMessage _ => ⟨r, [], [], .ok ()⟩
  | _ =>
    ⟨r, [], [], .error (Error.NotSupported ServiceBus.Msg request.get_type)⟩

/-- `Runtime::handle_rpc_ctl`: `CreateChannel` spawns a channel daemon for
the named connection daemon; `Connect` looks the source up in
`opening_channels` and forwards the stored request back to it on `Ctl`,
failing with `Other("Unknown channel")` when no entry exists; anything
else is `NotSupported`. -/
def handleRpcCtl (r : Runtime) (source : DaemonId) (request : Request) :
    Outcome :=
  match request with
  | .CreateChannel ⟨channel_req, connectiond⟩ =>
    let (r1, launched) := openChannelFn r channel_req
    let _ := connectiond
    ⟨r1, [], launched, .ok ()⟩
  | .Connect =>
    match lookupChan r.opening_channels source with
    | none => ⟨r, [], [], .error (Error.Other "Unknown channel")⟩
    | some open_channel =>
      ⟨r,
       [⟨ServiceBus.Ctl, source,
         Request.CreateChannel ⟨open_channel, source⟩⟩],
       [], .ok ()⟩
  | _ =>
    ⟨r, [], [], .error (Error.NotSupported ServiceBus.Ctl request.get_type)⟩

/-- `esb::Handler::handle` of the supervisor: dispatch by endpoint; the
bridge is refused with `NotSupported`. -/
def handle (r : Runtime) (endpoint : ServiceBus) (source : DaemonId)
    (request : Request) : Outcome :=
  match endpoint with
  | .Msg => handleRpcMsg r source request
  | .Ctl => handleRpcCtl r source request
  | .Bridge =>
    ⟨r, [], [],
     .error (Error.NotSupported ServiceBus.Bridge request.get_type)⟩

end Lnpd

namespace Channeld

theorem openChannelFn_state (ext : Ext) (r : Runtime)
    (m : message.OpenChannel) : (openChannelFn ext r m).1.state = r.state := by
  unfold openChannelFn
  cases ext.paramsWith m <;> rfl

theorem acceptChannelFn_state (ext : Ext) (r : Runtime)
    (m : message.OpenChannel) : (acceptChannelFn ext r m).1.state = r.state := by
  unfold acceptChannelFn
  cases ext.paramsWith m
  case error e => rfl
  case ok p =>
    simp only []
    split <;> rfl

theorem channelAccepted_state (ext : Ext) (r : Runtime)
    (m : message.AcceptChannel) : (channelAccepted ext r m).1.state = r.state := by
  unfold channelAccepted
  cases ext.paramsUpdated r.params m none <;> rfl

theorem fundingUpdate_state (ext : Ext) (r : Runtime) :
    (fundingUpdate ext r).1.state = r.state := rfl

theorem fundChannel_state (ext : Ext) (r : Runtime) (o : OutPoint) :
    (fundChannel ext r o).1.state = r.state := rfl

theorem fundingCreatedFn_state (ext : Ext) (r : Runtime)
    (m : message.FundingCreated) : (fundingCreatedFn ext r m).1.state = r.state := rfl

theorem transferFn_state (ext : Ext) (r : Runtime) (t : Transfer) :
    (transferFn ext r t).1.state = r.state := rfl

end Channeld
namespace Channeld

theorem step_state (ext : Ext) (r : Runtime) (i : Input) :
    (step ext r i).state = r.state ∨ (step ext r i).state = ChannelState.Proposed ∨
      (step ext r i).state = ChannelState.Accepted := by
  rcases i with ⟨bus, src, req⟩
  cases bus
  case Bridge => exact Or.inl rfl
  case Msg =>
    cases req
    case PeerMessage m =>
      cases m
      case AcceptChannel ac =>
        right; right
        simp only [step, handle, handleRpcMsg]
        split
        next r2 sends e heq =>
          have h3 := congrArg
            (fun p : Runtime × List Send × Except ChannelNegotiationError Unit =>
              p.1.state) heq
          simp only [channelAccepted_state] at h3
          simpa using h3.symm
        next r2 sends heq =>
          have h3 := congrArg
            (fun p : Runtime × List Send × Except ChannelNegotiationError Unit =>
              p.1.state) heq
          simp only [channelAccepted_state] at h3
          simpa using h3.symm
      all_goals exact Or.inl rfl
    all_goals exact Or.inl rfl
  case Ctl =>
    cases req
    case OpenChannelWith c =>
      rcases c with ⟨channel_req, peerd, report_to⟩
      simp only [step, handle, handleRpcCtl]
      split
      next r2 sends e heq =>
        left
        have h3 := congrArg
          (fun p : Runtime × List Send × Except ChannelNegotiationError Unit =>
            p.1.state) heq
        simp only [openChannelFn_state] at h3
        simpa using h3.symm
      next r2 sends heq =>
        right; left
        rfl
    case AcceptChannelFrom c =>
      rcases c with ⟨channel_req, peerd, report_to⟩
      right
      simp only [step, handle, handleRpcCtl]
      split
      next r2 sends e heq =>
        left
        have h3 := congrArg
          (fun p : Runtime × List Send ×
              Except ChannelNegotiationError message.AcceptChannel =>
            p.1.state) heq
        simp only [acceptChannelFn_state] at h3
        simpa using h3.symm
      next r2 sends ac heq =>
        right
        rfl
    all_goals exact Or.inl rfl

end Channeld

namespace Channeld

theorem stateTrace_mem (ext : Ext) (r : Runtime) (inputs : List Input)
    (hr : r.state = ChannelState.Proposed ∨ r.state = ChannelState.Accepted) :
    ∀ s ∈ stateTrace ext r inputs,
      s = ChannelState.Proposed ∨ s = ChannelState.Accepted := by
  induction inputs generalizing r with
  | nil => intro s hs; simp [stateTrace] at hs
  | cons i is ih =>
    intro s hs
    simp only [stateTrace, List.mem_cons] at hs
    have hstep : (step ext r i).state = ChannelState.Proposed ∨
        (step ext r i).state = ChannelState.Accepted := by
      rcases step_state ext r i with h | h | h
      · rw [h]; exact hr
      · exact Or.inl h
      · exact Or.inr h
    rcases hs with rfl | hs
    · exact hstep
    · exact ih (step ext r i) hstep s hs

/-- The temporal property of a state trace: whenever the trace reads
`Operational`, it earlier read `Accepted`, then `FundingCreated`, then
`Funded`, in that order. -/
def reachesOperationalThroughFundingPath (tr : List ChannelState) : Prop :=
  ∀ i : Nat, tr.get? i = some ChannelState.Operational →
    ∃ j k l : Nat, j < k ∧ k < l ∧ l < i ∧
      tr.get? j = some ChannelState.Accepted ∧
      tr.get? k = some ChannelState.FundingCreated ∧
      tr.get? l = some ChannelState.Funded

/-- C2: starting from the initial (`Proposed`) channel runtime, every
sequence of handled control and peer events yields a state trace in which
reaching `Operational` is preceded by `Accepted`, `FundingCreated` and
`Funded` in that order.  (In this source no handler ever assigns a state
beyond `Accepted` — the later transitions are commented out — so the
trace never reads `Operational` and the ordering property holds for every
event sequence.) -/
theorem operational_requires_funding_path (ext : Ext) (channel_id : ChanId)
    (local_node : PubKey) (chain : Bytes) (started : Nat)
    (inputs : List Input) :
    reachesOperationalThroughFundingPath
      (stateTrace ext (initRuntime channel_id local_node chain started) inputs) := by
  intro i hi
  exfalso
  have hmem : ChannelState.Operational ∈
      stateTrace ext (initRuntime channel_id local_node chain started) inputs :=
    List.get?_mem hi
  have hmem2 := stateTrace_mem ext _ inputs (Or.inl rfl) _ hmem
  rcases hmem2 with h | h <;> exact absurd h (by decide)

/-- C1: `funding_update` computes the obscuring factor as the big-endian
u64 formed by the last 8 bytes of SHA-256 over the opener's payment
basepoint followed by the responder's payment basepoint — originator
first regardless of which side is local — so two runtimes with negated
`is_originator` flags and the same two basepoints compute the same
factor. -/
theorem obscuring_factor_determinism (ext : Ext) (rA rB : Runtime)
    (pA pB : PubKey)
    (hA : rA.is_originator = true)
    (hB : rB.is_originator = false)
    (hA1 : rA.local_keys.payment_basepoint = pA)
    (hA2 : rA.remote_keys.payment_basepoint = pB)
    (hB1 : rB.local_keys.payment_basepoint = pB)
    (hB2 : rB.remote_keys.payment_basepoint = pA)
    (hlen : (ext.sha256 (pA ++ pB)).length = 32) :
    (fundingUpdate ext rA).1.obscuring_factor
        = beU64 ((ext.sha256 (pA ++ pB)).drop
            ((ext.sha256 (pA ++ pB)).length - 8)) ∧
      (fundingUpdate ext rB).1.obscuring_factor
        = beU64 ((ext.sha256 (pA ++ pB)).drop
            ((ext.sha256 (pA ++ pB)).length - 8)) ∧
      (fundingUpdate ext rA).1.obscuring_factor
        = (fundingUpdate ext rB).1.obscuring_factor := by
  have hfA : (fundingUpdate ext rA).1.obscuring_factor
      = beU64 ((ext.sha256 (pA ++ pB)).drop 24) := by
    simp [fundingUpdate, hA, hA1, hA2]
  have hfB : (fundingUpdate ext rB).1.obscuring_factor
      = beU64 ((ext.sha256 (pA ++ pB)).drop 24) := by
    simp [fundingUpdate, hB, hB1, hB2]
  rw [hlen]
  norm_num
  exact ⟨hfA, hfB, hfA.trans hfB.symm⟩

end Channeld

namespace Channeld

/-- A concrete instance of the external-library record used to evaluate the
handlers on closed inputs: a constant 32-byte hash, empty scripts and
signatures, accepting parameter validation. -/
def extW : Ext :=
  ⟨fun _ => List.replicate 32 1, fun _ _ _ => [], fun _ => [],
   fun _ => .ok defaultChannelParams, fun p _ _ => .ok p, [], [], 0⟩

/-- A concrete external-library record whose parameter validation rejects
every `AcceptChannel` with a dust-limit error. -/
def extRej : Ext :=
  { extW with paramsUpdated := fun _ _ _ => .error ChannelNegotiationError.dust }

/-- A concrete temporary channel id. -/
def tempIdW : ChanId := List.replicate 32 9

/-- The freshly started runtime `run` builds for `tempIdW`. -/
def r0W : Runtime := initRuntime tempIdW [] [] 0

/-- A runtime whose enquirer is known. -/
def rqW : Runtime := { r0W with enquirer := some ServiceId.Lnpd }

/-- A runtime that has processed five payments. -/
def r5W : Runtime := { r0W with total_payments := 5 }

/-- An originator-side runtime with payment basepoints `[1]` (local) and
`[2]` (remote). -/
def rAW : Runtime :=
  { r0W with is_originator := true,
             local_keys := { dumbChannelKeys with payment_basepoint := [1] },
             remote_keys := { dumbChannelKeys with payment_basepoint := [2] } }

/-- The responder-side runtime for the same channel: flags negated, the
same two basepoints seen from the other side. -/
def rBW : Runtime :=
  { r0W with is_originator := false,
             local_keys := { dumbChannelKeys with payment_basepoint := [2] },
             remote_keys := { dumbChannelKeys with payment_basepoint := [1] } }

/-- An `AcceptChannel` message with all-default payload. -/
def acW : message.AcceptChannel :=
  ⟨[], 0, 0, 0, 0, 0, 0, 0, [], [], [], [], [], [], none⟩

/-- A funding outpoint with txid `0x11…11` and output index 0. -/
def op17W : OutPoint := ⟨List.replicate 32 17, 0⟩

/-- Witness for C1 at concrete inputs: both sides compute the same factor. -/
theorem obscuring_factor_determinism_check :
    (fundingUpdate extW rAW).1.obscuring_factor
      = (fundingUpdate extW rBW).1.obscuring_factor :=
  (obscuring_factor_determinism extW rAW rBW [1] [2] rfl rfl rfl rfl rfl rfl
    (by decide)).2.2

/-- C5: in any runtime state, a Ctl `Transfer` succeeds, emits
`UpdateAddHtlc` with `htlc_id = total_payments` and the transfer's amount
and asset, and increments `total_payments` by one. -/
theorem transfer_increments_counters (ext : Ext) (r : Runtime)
    (src : ServiceId) (t : Transfer)
    (h : r.total_payments + 1 < 2 ^ 64) :
    (handle ext r ServiceBus.Ctl src (Request.Transfer t)).result = .ok () ∧
      (handle ext r ServiceBus.Ctl src (Request.Transfer t)).rt.total_payments
        = r.total_payments + 1 ∧
      (handle ext r ServiceBus.Ctl src (Request.Transfer t)).sends =
        [⟨ServiceBus.Ctl, r.identity, src, Request.Progress⟩,
         ⟨ServiceBus.Msg, r.identity, r.peer_service,
          Request.PeerMessage (Messages.UpdateAddHtlc
            { channel_id := r.channel_id
              htlc_id := r.total_payments
              amount_msat := t.amount
              payment_hash := ext.paymentHash
              cltv_expiry := 0
              onion_routing_packet := []
              asset_id := t.asset })⟩] := by
  refine ⟨rfl, ?_, rfl⟩
  show (r.total_payments + 1) % 2 ^ 64 = r.total_payments + 1
  exact Nat.mod_eq_of_lt h

/-- Witness for C5: with `total_payments = 5`, a 1000-msat transfer leaves
`total_payments = 6`. -/
theorem transfer_increments_counters_check :
    (handle extW r5W ServiceBus.Ctl ServiceId.Lnpd
        (Request.Transfer ⟨1000, none⟩)).rt.total_payments = 6 :=
  (transfer_increments_counters extW r5W ServiceId.Lnpd ⟨1000, none⟩
    (by decide)).2.1

/-- C4 (amended): when the parameter validation of a peer `AcceptChannel`
raises a `ChannelNegotiationError` and the enquirer is known, handling
sends a progress report and then a failure report to the enquirer and
returns the error (no panic) — but the channel state field after handling
equals `Accepted`, assigned before validation, not its pre-handling
value. -/
theorem accept_channel_failure_reported (ext : Ext) (r : Runtime)
    (src q : ServiceId) (ac : message.AcceptChannel)
    (e : ChannelNegotiationError)
    (hv : ext.paramsUpdated r.params ac none = .error e)
    (hq : r.enquirer = some q) :
    (handle ext r ServiceBus.Msg src
        (Request.PeerMessage (Messages.AcceptChannel ac))).result
      = .error (Error.Negotiation e) ∧
    (handle ext r ServiceBus.Msg src
        (Request.PeerMessage (Messages.AcceptChannel ac))).rt.state
      = ChannelState.Accepted ∧
    (handle ext r ServiceBus.Msg src
        (Request.PeerMessage (Messages.AcceptChannel ac))).sends =
      [⟨ServiceBus.Ctl, r.identity, q, Request.Progress⟩,
       ⟨ServiceBus.Ctl, r.identity, q,
        Request.Failure (Error.Negotiation e)⟩] := by
  simp [handle, handleRpcMsg, channelAccepted, hv, hq, reportProgressTo,
    reportFailureTo, sendCtlOpt, sendCtl]

/-- Counterexample for C4 as stated: a peer `AcceptChannel` whose
validation fails moves the state from `Proposed` to `Accepted`; it does
not stay in its pre-failure state. -/
theorem accept_channel_failure_state_changed :
    extRej.paramsUpdated r0W.params acW none
        = .error ChannelNegotiationError.dust ∧
      r0W.state = ChannelState.Proposed ∧
      (handle extRej r0W ServiceBus.Msg ServiceId.Loopback
          (Request.PeerMessage (Messages.AcceptChannel acW))).rt.state
        = ChannelState.Accepted ∧
      (handle extRej r0W ServiceBus.Msg ServiceId.Loopback
          (Request.PeerMessage (Messages.AcceptChannel acW))).rt.state
        ≠ r0W.state := by decide

/-- Witness for the amended C4 at concrete inputs. -/
theorem accept_channel_failure_reported_check :
    (handle extRej rqW ServiceBus.Msg ServiceId.Loopback
        (Request.PeerMessage (Messages.AcceptChannel acW))).rt.state
      = ChannelState.Accepted :=
  (accept_channel_failure_reported extRej rqW ServiceId.Loopback
    ServiceId.Lnpd acW ChannelNegotiationError.dust rfl rfl).2.1

/-- C3 (failing input): from the freshly started runtime (state `Proposed`,
zero channel id), handling Ctl `FundChannel` with txid `0x11…11`, vout 0
leaves the state at `Proposed` (the `FundingCreated` transition is
commented out in the source) while `funding_update` has set `channel_id`
to a non-zero value — so `channel_id` zero iff state in
{`Proposed`, `Accepted`} does not hold. -/
theorem fund_channel_breaks_channel_id_invariant :
    (step extW r0W ⟨ServiceBus.Ctl, ServiceId.Lnpd,
        Request.FundChannel op17W⟩).state = ChannelState.Proposed ∧
      (step extW r0W ⟨ServiceBus.Ctl, ServiceId.Lnpd,
        Request.FundChannel op17W⟩).channel_id ≠ zeroChanId := by decide

/-- C9: `GetInfo` on the `Msg` bus is refused with
`NotSupported(Msg, GetInfo)` and changes nothing; the same `GetInfo` on
`Ctl` afterwards succeeds and sends the `ChannelInfo` snapshot back to the
source. -/
theorem getinfo_cross_bus_isolation (ext : Ext) (r : Runtime)
    (src : ServiceId) :
    (handle ext r ServiceBus.Msg src Request.GetInfo).result
        = .error (Error.NotSupported ServiceBus.Msg RequestType.GetInfo) ∧
      (handle ext r ServiceBus.Msg src Request.GetInfo).rt = r ∧
      (handle ext r ServiceBus.Msg src Request.GetInfo).sends = [] ∧
      (handle ext (handle ext r ServiceBus.Msg src Request.GetInfo).rt
          ServiceBus.Ctl src Request.GetInfo).result = .ok () ∧
      (handle ext (handle ext r ServiceBus.Msg src Request.GetInfo).rt
          ServiceBus.Ctl src Request.GetInfo).rt = r ∧
      (handle ext (handle ext r ServiceBus.Msg src Request.GetInfo).rt
          ServiceBus.Ctl src Request.GetInfo).sends =
        [⟨ServiceBus.Ctl, r.identity, src,
          Request.ChannelInfo (mkChannelInfo ext r)⟩] :=
  ⟨rfl, rfl, rfl, rfl, rfl, rfl⟩

end Channeld

namespace Lnpd

/-- C8: a Ctl `Connect` whose source has no entry in `opening_channels`
returns `Other("Unknown channel")`, sends nothing, launches nothing and
leaves the map unchanged; with an entry, the stored `OpenChannel` is sent
back to the source on Ctl as `CreateChannel` with `connectiond` equal to
the source. -/
theorem connect_unknown_channel (r : Runtime) (src : DaemonId) :
    (lookupChan r.opening_channels src = none →
      handle r ServiceBus.Ctl src Request.Connect =
        ⟨r, [], [], .error (Error.Other "Unknown channel")⟩) ∧
    (∀ oc : message.OpenChannel,
      lookupChan r.opening_channels src = some oc →
      handle r ServiceBus.Ctl src Request.Connect =
        ⟨r, [⟨ServiceBus.Ctl, src, Request.CreateChannel ⟨oc, src⟩⟩], [],
         .ok ()⟩) := by
  constructor
  · intro h
    simp [handle, handleRpcCtl, h]
  · intro oc h
    simp [handle, handleRpcCtl, h]

end Lnpd

theorem decodeStr_encodeStr (s : Bytes) (h : s.length < 65536) :
    decodeStrBytes (u16le s.length ++ s) = some (s, []) := by
  have h256 : (0 : Nat) < 256 := by norm_num
  have hlen : s.length % 256 % 256 + 256 * (s.length / 256 % 256 % 256)
      = s.length := by
    have hm : s.length % 256 % 256 = s.length % 256 :=
      Nat.mod_eq_of_lt (Nat.mod_lt _ h256)
    have hdlt : s.length / 256 < 256 := by
      rw [Nat.div_lt_iff_lt_mul h256]
      calc s.length < 65536 := h
        _ = 256 * 256 := by norm_num
    have hd : s.length / 256 % 256 % 256 = s.length / 256 := by
      rw [Nat.mod_eq_of_lt (Nat.mod_lt _ h256), Nat.mod_eq_of_lt hdlt]
    rw [hm, hd, Nat.mod_add_div]
  simp only [u16le, List.cons_append, List.nil_append, decodeStrBytes]
  rw [hlen]
  simp

/-- C6: strict-decoding the bytes that strict-encoding any `DaemonId`
produces yields exactly that value (and consumes the whole buffer); the
well-formedness hypothesis records what the Rust types guarantee, namely
that a `Channel` payload is exactly 32 bytes. -/
theorem daemonId_strict_encoding_roundtrip (a : DaemonId) (bytes : Bytes)
    (hwf : a.wf) (henc : a.strictEncode = some bytes) :
    DaemonId.strictDecode bytes = some (a, []) := by
  cases a with
  | Loopback => injection henc with h; subst h; rfl
  | Lnpd => injection henc with h; subst h; rfl
  | Gossip => injection henc with h; subst h; rfl
  | Routing => injection henc with h; subst h; rfl
  | Connection s =>
    simp only [DaemonId.strictEncode, encodeStrBytes] at henc
    split at henc
    case isTrue hlt =>
      simp only [Option.map_some'] at henc
      injection henc with h
      subst h
      simpa [DaemonId.strictDecode] using decodeStr_encodeStr s hlt
    case isFalse hlt => simp at henc
  | Channel id =>
    have hwf32 : id.length = 32 := hwf
    simp only [DaemonId.strictEncode] at henc
    injection henc with h
    subst h
    simp only [DaemonId.strictDecode]
    rw [if_neg (by rw [hwf32]; exact lt_irrefl 32)]
    rw [← hwf32, List.take_length, List.drop_length]
  | Foreign s =>
    simp only [DaemonId.strictEncode, encodeStrBytes] at henc
    split at henc
    case isTrue hlt =>
      simp only [Option.map_some'] at henc
      injection henc with h
      subst h
      simpa [DaemonId.strictDecode] using decodeStr_encodeStr s hlt
    case isFalse hlt => simp at henc

/-- Witness for C6 at a concrete input: a two-byte `Connection` endpoint
round-trips through the strict codec. -/
theorem daemonId_strict_encoding_roundtrip_check :
    DaemonId.strictDecode [4, 2, 0, 104, 105]
      = some (DaemonId.Connection [104, 105], []) :=
  daemonId_strict_encoding_roundtrip (DaemonId.Connection [104, 105]) _
    (by decide) rfl

theorem ne_fixed_names_of_length32 (v : Bytes) (h : v.length = 32) :
    v ≠ loopbackBytes ∧ v ≠ lnpdBytes ∧ v ≠ gossipdBytes ∧ v ≠ routedBytes := by
  refine ⟨?_, ?_, ?_, ?_⟩ <;> rintro rfl <;>
    simp [loopbackBytes, lnpdBytes, gossipdBytes, routedBytes] at h

/-- C7: parsing the flat byte projection back recovers `Loopback`, `Lnpd`
(supervisor), `Gossip`, `Routing` (router), and any `Channel` with a
32-byte id that the node-endpoint parser does not accept; for a
`Connection` whose endpoint is valid UTF-8 and none of the four fixed
names, the round-trip holds exactly when the endpoint parses as a node
endpoint.  `ie` is `NodeEndpoint::from_str(…).is_ok()` and `lo` is
`String::from_utf8_lossy`, both library code outside this repository. -/
theorem daemonId_byte_projection_roundtrip (ie : Bytes → Bool)
    (lo : Bytes → Bytes) :
    (DaemonId.fromVec ie lo (DaemonId.asRef DaemonId.Loopback)
        = DaemonId.Loopback) ∧
    (DaemonId.fromVec ie lo (DaemonId.asRef DaemonId.Lnpd)
        = DaemonId.Lnpd) ∧
    (DaemonId.fromVec ie lo (DaemonId.asRef DaemonId.Gossip)
        = DaemonId.Gossip) ∧
    (DaemonId.fromVec ie lo (DaemonId.asRef DaemonId.Routing)
        = DaemonId.Routing) ∧
    (∀ id : ChanId, id.length = 32 → ie (lo id) = false →
      DaemonId.fromVec ie lo (DaemonId.asRef (DaemonId.Channel id))
        = DaemonId.Channel id) ∧
    (∀ e : Bytes, lo e = e →
      e ≠ loopbackBytes → e ≠ lnpdBytes → e ≠ gossipdBytes → e ≠ routedBytes →
      (DaemonId.fromVec ie lo (DaemonId.asRef (DaemonId.Connection e))
          = DaemonId.Connection e ↔ ie e = true)) := by
  refine ⟨rfl, rfl, rfl, rfl, ?_, ?_⟩
  · intro id hlen hie
    obtain ⟨h1, h2, h3, h4⟩ := ne_fixed_names_of_length32 id hlen
    simp [DaemonId.fromVec, DaemonId.asRef, h1, h2, h3, h4, hie, hlen]
  · intro e hlo h1 h2 h3 h4
    constructor
    · intro hrt
      cases hb : ie e with
      | true => rfl
      | false =>
        exfalso
        simp [DaemonId.fromVec, DaemonId.asRef, h1, h2, h3, h4, hlo, hb] at hrt
        split at hrt <;> simp at hrt
    · intro hie
      simp [DaemonId.fromVec, DaemonId.asRef, h1, h2, h3, h4, hlo, hie]

/-- C10: the conversion from raw bytes to a `DaemonId` is a total function
with the priority order of the source: the four fixed names map to their
unit variants; otherwise a vector whose lossy-UTF-8 string the
node-endpoint parser accepts maps to `Connection` of that string;
otherwise a 32-byte vector maps to `Channel` of the raw bytes; every
remaining vector maps to `Foreign` of the lossy string. -/
theorem daemonId_fromVec_characterization (ie : Bytes → Bool)
    (lo : Bytes → Bytes) (v : Bytes) :
    (v = loopbackBytes → DaemonId.fromVec ie lo v = DaemonId.Loopback) ∧
    (v = lnpdBytes → DaemonId.fromVec ie lo v = DaemonId.Lnpd) ∧
    (v = gossipdBytes → DaemonId.fromVec ie lo v = DaemonId.Gossip) ∧
    (v = routedBytes → DaemonId.fromVec ie lo v = DaemonId.Routing) ∧
    (v ≠ loopbackBytes → v ≠ lnpdBytes → v ≠ gossipdBytes → v ≠ routedBytes →
      ie (lo v) = true →
        DaemonId.fromVec ie lo v = DaemonId.Connection (lo v)) ∧
    (v ≠ loopbackBytes → v ≠ lnpdBytes → v ≠ gossipdBytes → v ≠ routedBytes →
      ie (lo v) = false → v.length = 32 →
        DaemonId.fromVec ie lo v = DaemonId.Channel v) ∧
    (v ≠ loopbackBytes → v ≠ lnpdBytes → v ≠ gossipdBytes → v ≠ routedBytes →
      ie (lo v) = false → v.length ≠ 32 →
        DaemonId.fromVec ie lo v = DaemonId.Foreign (lo v)) := by
  refine ⟨?_, ?_, ?_, ?_, ?_, ?_, ?_⟩
  · rintro rfl; rfl
  · rintro rfl; rfl
  · rintro rfl; rfl
  · rintro rfl; rfl
  · intro h1 h2 h3 h4 hie
    simp [DaemonId.fromVec, h1, h2, h3, h4, hie]
  · intro h1 h2 h3 h4 hie hlen
    simp [DaemonId.fromVec, h1, h2, h3, h4, hie, hlen]
  · intro h1 h2 h3 h4 hie hlen
    simp [DaemonId.fromVec, h1, h2, h3, h4, hie, hlen]
